import Mathlib

/-!
Verification of the ingestion/deduplication/retrieval/generation core of the
AI-powered knowledge hub (Python API).  The Python sources are embedded
shallowly: pure string manipulation becomes functions on `List Char`, the
mutable Qdrant index becomes an explicit list of payloads threaded through the
operations, fallible external calls (embedding, upsert, scroll look-ups) become
explicit Boolean failure flags, and `while` loops that need not terminate are
given an explicit fuel argument (`none` = the fuel ran out before the loop
exited, which for a loop whose state repeats proves non-termination).
-/

set_option maxRecDepth 4000

namespace KnowledgeHub

/-! ### Python string primitives (on `List Char`) -/

/-- Characters removed by Python `str.strip()` with no argument (ASCII whitespace). -/
def pyIsSpace (c : Char) : Bool :=
  c = ' ' || c = '\t' || c = '\n' || c = '\x0b' || c = '\x0c' || c = '\r'

/-- Python `s.strip()`: drop whitespace from both ends of the string. -/
def pyStrip (xs : List Char) : List Char :=
  ((xs.dropWhile pyIsSpace).reverse.dropWhile pyIsSpace).reverse

/-- Resolve one endpoint of a Python slice against a string of length `L`:
a negative index counts from the end, and the result is clamped to `[0, L]`. -/
def pyIdx (L : Nat) (i : Int) : Nat :=
  if i < 0 then (max 0 ((L : Int) + i)).toNat else min i.toNat L

/-- Python slice `xs[a:b]` (step 1), including the negative-index convention. -/
def pySlice (xs : List Char) (a b : Int) : List Char :=
  (xs.take (pyIdx xs.length b)).drop (pyIdx xs.length a)

def pyRfindAux (c : Char) : List Char → Int → Int → Int
  | [], _, best => best
  | x :: xs, i, best => pyRfindAux c xs (i + 1) (if x = c then i else best)

/-- Python `s.rfind(c)`: index of the last occurrence of `c` in `s`, `-1` if absent. -/
def pyRfind (xs : List Char) (c : Char) : Int :=
  pyRfindAux c xs 0 (-1)

/-- Python `needle in hay` for strings (contiguous substring test). -/
def isSubstring (needle : List Char) : List Char → Bool
  | [] => needle.isEmpty
  | c :: rest => needle.isPrefixOf (c :: rest) || isSubstring needle rest

/-- Python `enumerate(xs, i)` fused with a list comprehension: build `f i x` for
each element, with the counter starting at `i`. -/
def enumFrom {α β : Type} (f : Nat → α → β) : Nat → List α → List β
  | _, [] => []
  | i, a :: rest => f i a :: enumFrom f (i + 1) rest

/-! ### Chunker: `DocumentProcessor._create_chunks`

The Python loop

```
start = 0
while start < text_length:
    end = start + self.chunk_size
    chunk = text[start:end]
    if end < text_length:
        last_period = chunk.rfind('.')
        last_newline = chunk.rfind('\n')
        boundary = max(last_period, last_newline)
        if boundary > self.chunk_size // 2:
            chunk = chunk[:boundary + 1]
            end = start + boundary + 1
    chunks.append(chunk.strip())
    start = end - self.chunk_overlap
return [chunk for chunk in chunks if chunk]
```

is embedded with `start : Int` (Python `end - overlap` can go negative) and an
explicit fuel bound; `none` means the loop had not exited after `fuel`
iterations. -/

def create_chunks_loop (chunk_size chunk_overlap : Nat) (text : List Char) :
    Nat → Int → List (List Char) → Option (List (List Char))
  | 0, _, _ => none
  | fuel + 1, start, chunks =>
    if start < (text.length : Int) then
      let e := start + (chunk_size : Int)
      let chunk := pySlice text start e
      let step :=
        if e < (text.length : Int) then
          let boundary := max (pyRfind chunk '.') (pyRfind chunk '\n')
          if boundary > ((chunk_size / 2 : Nat) : Int) then
            (pySlice chunk 0 (boundary + 1), start + boundary + 1)
          else (chunk, e)
        else (chunk, e)
      create_chunks_loop chunk_size chunk_overlap text fuel
        (step.2 - (chunk_overlap : Int)) (chunks ++ [pyStrip step.1])
    else
      some (chunks.filter (fun c => !c.isEmpty))

/-- `DocumentProcessor._create_chunks(text)`, with fuel.  A result `some cs`
means the Python loop terminates and returns `cs`; `none` means `fuel`
iterations were not enough. -/
def create_chunks (chunk_size chunk_overlap : Nat) (text : List Char) (fuel : Nat) :
    Option (List (List Char)) :=
  create_chunks_loop chunk_size chunk_overlap text fuel 0 []

/-! ### MD5 (`hashlib.md5(...).hexdigest()`)

`DocumentProcessor` derives document identities with `hashlib.md5`; the digest
algorithm (RFC 1321) is implemented here over byte lists, with 32-bit words as
`Nat` reduced modulo `2^32`. -/

/-- Reduce to a 32-bit word. -/
def w32 (n : Nat) : Nat := n % 4294967296

/-- Rotate a 32-bit word left by `s` (`0 < s < 32`); the argument is assumed
already reduced modulo `2^32`. -/
def rotl32 (x s : Nat) : Nat := (x * 2 ^ s + x / 2 ^ (32 - s)) % 4294967296

/-- Bitwise complement on 32-bit words (argument assumed reduced). -/
def not32 (x : Nat) : Nat := 4294967295 - x

/-- Per-round shift amounts of MD5. -/
def md5_s : List Nat :=
  [7, 12, 17, 22, 7, 12, 17, 22, 7, 12, 17, 22, 7, 12, 17, 22,
   5, 9, 14, 20, 5, 9, 14, 20, 5, 9, 14, 20, 5, 9, 14, 20,
   4, 11, 16, 23, 4, 11, 16, 23, 4, 11, 16, 23, 4, 11, 16, 23,
   6, 10, 15, 21, 6, 10, 15, 21, 6, 10, 15, 21, 6, 10, 15, 21]

/-- MD5 sine-derived constants `K[i] = floor(2^32 * |sin(i + 1)|)`. -/
def md5_K : List Nat :=
  [0xd76aa478, 0xe8c7b756, 0x242070db, 0xc1bdceee, 0xf57c0faf, 0x4787c62a,
   0xa8304613, 0xfd469501, 0x698098d8, 0x8b44f7af, 0xffff5bb1, 0x895cd7be,
   0x6b901122, 0xfd987193, 0xa679438e, 0x49b40821, 0xf61e2562, 0xc040b340,
   0x265e5a51, 0xe9b6c7aa, 0xd62f105d, 0x02441453, 0xd8a1e681, 0xe7d3fbc8,
   0x21e1cde6, 0xc33707d6, 0xf4d50d87, 0x455a14ed, 0xa9e3e905, 0xfcefa3f8,
   0x676f02d9, 0x8d2a4c8a, 0xfffa3942, 0x8771f681, 0x6d9d6122, 0xfde5380c,
   0xa4beea44, 0x4bdecfa9, 0xf6bb4b60, 0xbebfbc70, 0x289b7ec6, 0xeaa127fa,
   0xd4ef3085, 0x04881d05, 0xd9d4d039, 0xe6db99e5, 0x1fa27cf8, 0xc4ac5665,
   0xf4292244, 0x432aff97, 0xab9423a7, 0xfc93a039, 0x655b59c3, 0x8f0ccc92,
   0xffeff47d, 0x85845dd1, 0x6fa87e4f, 0xfe2ce6e0, 0xa3014314, 0x4e0811a1,
   0xf7537e82, 0xbd3af235, 0x2ad7d2bb, 0xeb86d391]

/-- Round function of step `i` applied to state words `b`, `c`, `d`. -/
def md5_F (i b c d : Nat) : Nat :=
  if i < 16 then Nat.lor (Nat.land b c) (Nat.land (not32 b) d)
  else if i < 32 then Nat.lor (Nat.land d b) (Nat.land (not32 d) c)
  else if i < 48 then Nat.xor (Nat.xor b c) d
  else Nat.xor c (Nat.lor b (not32 d))

/-- Message-word index used at step `i`. -/
def md5_g (i : Nat) : Nat :=
  if i < 16 then i
  else if i < 32 then (5 * i + 1) % 16
  else if i < 48 then (3 * i + 5) % 16
  else (7 * i) % 16

/-- One of the 64 MD5 steps, acting on the state `(a, b, c, d)`;
`M` is the current 16-word message block. -/
def md5_step (M : List Nat) (st : Nat × Nat × Nat × Nat) (i : Nat) :
    Nat × Nat × Nat × Nat :=
  let f := w32 (md5_F i st.2.1 st.2.2.1 st.2.2.2 + st.1 +
                md5_K.getD i 0 + M.getD (md5_g i) 0)
  (st.2.2.2, w32 (st.2.1 + rotl32 f (md5_s.getD i 0)), st.2.1, st.2.2.1)

/-- Process one 64-byte block (already decoded into 16 little-endian words). -/
def md5_block (st : Nat × Nat × Nat × Nat) (M : List Nat) : Nat × Nat × Nat × Nat :=
  let r := (List.range 64).foldl (md5_step M) st
  (w32 (st.1 + r.1), w32 (st.2.1 + r.2.1), w32 (st.2.2.1 + r.2.2.1),
   w32 (st.2.2.2 + r.2.2.2))

/-- Decode a byte list (whose length is a multiple of 4) into little-endian
32-bit words. -/
def le_words : List Nat → List Nat
  | b0 :: b1 :: b2 :: b3 :: rest =>
      (b0 + 256 * b1 + 65536 * b2 + 16777216 * b3) :: le_words rest
  | _ => []

/-- Little-endian byte decomposition of `n` into `k` bytes. -/
def le_bytes (n : Nat) : Nat → List Nat
  | 0 => []
  | k + 1 => (n % 256) :: le_bytes (n / 256) k

/-- MD5 padding: a `0x80` byte, zeros up to 56 mod 64, then the 64-bit
little-endian bit length of the original message. -/
def md5_pad (msg : List Nat) : List Nat :=
  msg ++ [128] ++ List.replicate ((120 - (msg.length + 1) % 64) % 64) 0 ++
    le_bytes ((8 * msg.length) % 18446744073709551616) 8

/-- Fold the compression function over the padded message, 64 bytes at a
time; `fuel` bounds the number of blocks (any value at least the block count
gives the digest). -/
def md5_blocks : Nat → (Nat × Nat × Nat × Nat) → List Nat → Nat × Nat × Nat × Nat
  | 0, st, _ => st
  | _, st, [] => st
  | fuel + 1, st, bytes =>
      md5_blocks fuel (md5_block st (le_words (bytes.take 64))) (bytes.drop 64)

/-- Hexadecimal digit (lowercase) for `n < 16`. -/
def hexDigit (n : Nat) : Char :=
  if n < 10 then Char.ofNat (48 + n) else Char.ofNat (87 + n)

/-- Two lowercase hex digits of a byte. -/
def byteHex (b : Nat) : List Char := [hexDigit (b / 16), hexDigit (b % 16)]

/-- `hashlib.md5(msg).hexdigest()` on a byte list. -/
def md5hex (msg : List Nat) : String :=
  let padded := md5_pad msg
  let st := md5_blocks padded.length
    (0x67452301, 0xefcdab89, 0x98badcfe, 0x10325476) padded
  String.mk ((le_bytes st.1 4 ++ le_bytes st.2.1 4 ++
              le_bytes st.2.2.1 4 ++ le_bytes st.2.2.2 4).flatMap byteHex)

/-- UTF-8 bytes of one character (Python `str.encode()`). -/
def utf8Char (c : Char) : List Nat :=
  let n := c.toNat
  if n < 128 then [n]
  else if n < 2048 then [192 + n / 64, 128 + n % 64]
  else if n < 65536 then [224 + n / 4096, 128 + n / 64 % 64, 128 + n % 64]
  else [240 + n / 262144, 128 + n / 4096 % 64, 128 + n / 64 % 64, 128 + n % 64]

/-- Python `s.encode()`: UTF-8 bytes of a string. -/
def utf8Encode (s : String) : List Nat := s.toList.flatMap utf8Char

/-! ### `DocumentProcessor`: doc ids and chunk construction

Text extraction itself (PyPDF2, python-docx, markdown) is an external
collaborator; `process_file`/`process_upload` receive the extracted text as an
argument.  What is embedded is the suffix dispatch (raising `ValueError` on an
unsupported extension), the chunking, the metadata attached to each chunk, and
most importantly the two doc-id computations. -/

/-- ASCII lowering of one character (Python `str.lower()` on the ASCII range,
which is all a file suffix ever contains here). -/
def pyLowerChar (c : Char) : Char :=
  if 'A' ≤ c ∧ c ≤ 'Z' then Char.ofNat (c.toNat + 32) else c

/-- Python `s.lower()` (ASCII range). -/
def pyLower (s : String) : String := String.mk (s.toList.map pyLowerChar)

/-- `pathlib.Path(p).name`: the final path component (for file paths without a
trailing slash, which is the only way these are called). -/
def path_name (p : String) : String :=
  String.mk ((p.toList.reverse.takeWhile (fun c => c ≠ '/')).reverse)

/-- `pathlib.Path(p).suffix`: the extension from the last dot of the final
component, empty when that dot is absent, first, or last (CPython's rule). -/
def path_suffix (p : String) : String :=
  let name := (path_name p).toList
  let i := pyRfind name '.'
  if 0 < i ∧ i < (name.length : Int) - 1 then
    String.mk (name.drop i.toNat)
  else ""

/-- Metadata dict attached to every chunk. -/
structure ChunkMeta where
  source : String
  filename : String
  chunk_index : Nat
  file_type : String
  doc_id : String
deriving DecidableEq

/-- One chunk dict `{"text": ..., "metadata": {...}}`. -/
structure Chunk where
  text : String
  metadata : ChunkMeta
deriving DecidableEq

/-- `DocumentProcessor._generate_doc_id(file_path)`:
`hashlib.md5(str(file_path).encode()).hexdigest()` — the digest of the PATH
string, not of the file's content. -/
def generate_doc_id (file_path : String) : String :=
  md5hex (utf8Encode file_path)

/-- File extensions `process_file`/`process_upload` accept. -/
def supported_suffix (s : String) : Bool :=
  s = ".pdf" || s = ".txt" || s = ".md" || s = ".docx"

/-- `DocumentProcessor.process_file(file_path)`.  `extracted_text` stands for
the text the format-specific extractor returned for that file; `.error` is the
`ValueError` raised on an unsupported extension; the outer `none` means the
chunking loop had not terminated within `fuel` iterations. -/
def process_file (chunk_size chunk_overlap : Nat) (file_path : String)
    (extracted_text : List Char) (fuel : Nat) : Option (Except String (List Chunk)) :=
  let suffix := pyLower (path_suffix file_path)
  if supported_suffix suffix then
    (create_chunks chunk_size chunk_overlap extracted_text fuel).map fun chunks =>
      Except.ok (enumFrom (fun idx c =>
        { text := String.mk c
          metadata :=
            { source := file_path
              filename := path_name file_path
              chunk_index := idx
              file_type := suffix
              doc_id := generate_doc_id file_path } }) 0 chunks)
  else some (Except.error ("Unsupported file format: " ++ suffix))

/-- `DocumentProcessor.process_upload(filename, file_content)`: identical
chunking, but `doc_id = hashlib.md5(file_content).hexdigest()` — the digest of
the raw uploaded BYTES, independent of the filename. -/
def process_upload (chunk_size chunk_overlap : Nat) (filename : String)
    (file_content : List Nat) (extracted_text : List Char) (fuel : Nat) :
    Option (Except String (List Chunk)) :=
  let file_extension := pyLower (path_suffix filename)
  if supported_suffix file_extension then
    (create_chunks chunk_size chunk_overlap extracted_text fuel).map fun chunks =>
      Except.ok (enumFrom (fun idx c =>
        { text := String.mk c
          metadata :=
            { source := filename
              filename := filename
              chunk_index := idx
              file_type := file_extension
              doc_id := md5hex file_content } }) 0 chunks)
  else some (Except.error ("Unsupported file format: " ++ file_extension))

/-! ### `LangChainVectorStore`

The Qdrant index is modelled as the list of stored point payloads.  A payload
has one of the two shapes the code tolerates: the legacy flat shape with a
top-level `doc_id`, or the LangChain shape `{"page_content": ..., "metadata":
{...}}` whose `doc_id` sits inside the nested metadata.  The scroll look-ups of
`check_document_exists` and the `add_texts` upsert can fail in Python (network
errors); each such call gets an explicit Boolean failure flag. -/

/-- A stored point payload, in either of the two supported shapes. -/
inductive Payload where
  /-- Legacy flat shape: `doc_id` at the top level of the payload. -/
  | legacy (doc_id : String) (text : String)
  /-- LangChain shape: `page_content` plus nested `metadata` carrying `doc_id`. -/
  | langchain (page_content : String) (metadata : ChunkMeta)
deriving DecidableEq

/-- Match of the Qdrant filter `metadata.doc_id == d` against one payload:
only the nested LangChain shape can satisfy it. -/
def nested_doc_id_matches (d : String) : Payload → Bool
  | .legacy _ _ => false
  | .langchain _ m => m.doc_id = d

/-- Match of the Qdrant filter `doc_id == d` (top level) against one payload:
only the legacy flat shape can satisfy it. -/
def legacy_doc_id_matches (d : String) : Payload → Bool
  | .legacy did _ => did = d
  | .langchain _ _ => false

/-- `LangChainVectorStore.check_document_exists(doc_id)`.  An empty `doc_id`
short-circuits to `false`.  The `metadata.doc_id` scroll is tried first; only
when it RAISES (`meta_lookup_fails`) is the top-level `doc_id` scroll tried
(`legacy_lookup_fails` likewise); when the nested scroll succeeds but finds
nothing the function returns `false` without consulting the legacy shape, and
any failure path also returns `false` ("assume the document is new"). -/
def check_document_exists (meta_lookup_fails legacy_lookup_fails : Bool)
    (points : List Payload) (doc_id : String) : Bool :=
  if doc_id = "" then false
  else if meta_lookup_fails then
    if legacy_lookup_fails then false
    else points.any (legacy_doc_id_matches doc_id)
  else points.any (nested_doc_id_matches doc_id)

/-- `LangChainVectorStore.add_documents(chunks)`, the body executed under the
per-doc-id lock (`with doc_lock:` serializes it; the sequential body is what is
embedded).  Empty input returns `False`; otherwise the existence re-check runs
inside the lock; `add_texts_fails` stands for the embedding/upsert call
raising, which the Python code CATCHES, logging and returning `False` — hence
the result is always `Except.ok`.  On success every chunk is stored in the
LangChain shape with `doc_id` stamped into its metadata (the code overwrites
each chunk's `metadata["doc_id"]` with `chunks[0]`'s). -/
def add_documents (meta_lookup_fails legacy_lookup_fails add_texts_fails : Bool)
    (points : List Payload) (chunks : List Chunk) :
    Except String (List Payload × Bool) :=
  match chunks with
  | [] => .ok (points, false)
  | c0 :: _ =>
    let doc_id := c0.metadata.doc_id
    if check_document_exists meta_lookup_fails legacy_lookup_fails points doc_id then
      .ok (points, false)
    else if add_texts_fails then
      .ok (points, false)
    else
      .ok (points ++ chunks.map (fun c =>
        Payload.langchain c.text { c.metadata with doc_id := doc_id }), true)

/-! ### `Retriever.get_context_for_generation` -/

/-- One retrieved search hit as the retriever consumes it: `doc['text']`,
`doc['metadata'].get('filename', ...)` and `doc.get('score', ...)` (the last
two may be absent, hence `Option`).  Scores are modelled as rationals. -/
structure RetrievedDoc where
  text : String
  filename : Option String
  score : Option ℚ
deriving DecidableEq

/-- Rational literal 1, given directly in reduced form (score used by
concrete retrieval examples). -/
def qOne : ℚ := ⟨1, 1, by decide, Nat.coprime_one_left 1⟩

/-- Rational literal one half, given directly in reduced form. -/
def qHalf : ℚ := ⟨1, 2, by decide, Nat.coprime_one_left 2⟩

/-- Sentinel returned when retrieval finds nothing. -/
def no_documents_sentinel : String :=
  "No relevant documents found in the knowledge base."

/-- Python `f"{q:.2f}"` on the rational `q`: fixed-point with two decimals,
rounding half to even, computed from the reduced `num`/`den` representation
(`100 * |q| = scaled / den`, floor plus a remainder comparison against one
half). -/
def format_2f (q : ℚ) : String :=
  let neg := q.num < 0
  let scaled := 100 * q.num.natAbs
  let fl := scaled / q.den
  let rem := scaled % q.den
  let n :=
    if q.den < 2 * rem then fl + 1
    else if 2 * rem < q.den then fl
    else if fl % 2 = 0 then fl else fl + 1
  (if neg then "-" else "") ++ toString (n / 100) ++ "." ++
    (if n % 100 < 10 then "0" else "") ++ toString (n % 100)

/-- The labeled block built for hit number `idx` (1-based):
`f"[Document {idx} - {source} (Relevance: {score:.2f})]\n{text}\n"` with the
code's `.get` defaults. -/
def context_block (idx : Nat) (doc : RetrievedDoc) : String :=
  "[Document " ++ toString idx ++ " - " ++ doc.filename.getD "Unknown" ++
    " (Relevance: " ++ format_2f (doc.score.getD 0) ++ ")]\n" ++ doc.text ++ "\n"

/-- `Retriever.get_context_for_generation`: the sentinel on an empty result
list, otherwise the enumerated blocks joined with `"\n---\n"`. -/
def get_context_for_generation (documents : List RetrievedDoc) : String :=
  if documents.isEmpty then no_documents_sentinel
  else String.intercalate "\n---\n" (enumFrom context_block 1 documents)

/-- Modelled from the spec: `context_for` "concatenates each result as a
labeled block (`[Document i - <filename> (Relevance: <score to 2 decimals>)]`,
newline, text, newline) in order, blocks separated by a literal delimiter
line", the i-th result (1-based) getting label i; an empty retrieval yields
the literal no-documents sentinel. -/
def context_for_spec (documents : List RetrievedDoc) : String :=
  if documents.isEmpty then no_documents_sentinel
  else
    String.intercalate "\n---\n"
      (List.zipWith (fun i doc => context_block i doc)
        (List.range' 1 documents.length) documents)

/-! ### `OpenAIGenerator.generate` / `RAGPipeline.query`: the token budget

The external completion call is out of scope; what is embedded is the
`max_tokens` value `generate` hands to it. -/

/-- Substring `OpenAIGenerator.generate` probes the context for. -/
def no_context_phrase : String := "No relevant documents found"

/-- The `max_tokens` value `OpenAIGenerator.generate` passes to the completion
API: the default 1000 when the caller gave none, clamped to
`min(max_tokens, 300)` when the context CONTAINS the no-context phrase. -/
def generate_max_tokens (max_tokens : Option Nat) (context : String) : Nat :=
  let mt := max_tokens.getD 1000
  if isSubstring no_context_phrase.toList context.toList then min mt 300 else mt

/-- The output-length budget `RAGPipeline.query` effectively uses for a given
retrieval result: it builds the context with `get_context_for_generation` and
calls `generate` without a `max_tokens` argument. -/
def query_max_tokens (documents : List RetrievedDoc) : Nat :=
  generate_max_tokens none (get_context_for_generation documents)

/-! ### Helper lemmas -/

/-- Slicing from 0 to at least the length returns the whole string. -/
theorem pySlice_zero_of_le (xs : List Char) (n : Nat) (h : xs.length ≤ n) :
    pySlice xs 0 (n : Int) = xs := by
  unfold pySlice pyIdx
  rw [if_neg (by omega : ¬ ((n : Int) < 0)), if_neg (by omega : ¬ ((0 : Int) < 0))]
  simp [Nat.min_eq_right h]

/-- Elements of `enumFrom f i l` are values of `f` at elements of `l`. -/
theorem mem_enumFrom {α β : Type} (f : Nat → α → β) :
    ∀ (l : List α) (i : Nat) (b : β), b ∈ enumFrom f i l → ∃ j a, a ∈ l ∧ b = f j a := by
  intro l
  induction l with
  | nil => intro i b h; simp [enumFrom] at h
  | cons x rest ih =>
    intro i b h
    rcases (List.mem_cons).mp h with h1 | h1
    · exact ⟨i, x, by simp, h1⟩
    · obtain ⟨j, a, ha, hb⟩ := ih (i + 1) b h1
      exact ⟨j, a, by simp [ha], hb⟩

/-- `enumFrom` is `zipWith` against the counter range. -/
theorem enumFrom_zipWith {α β : Type} (f : Nat → α → β) :
    ∀ (l : List α) (i : Nat),
      enumFrom f i l = List.zipWith f (List.range' i l.length) l := by
  intro l
  induction l with
  | nil => intro i; rfl
  | cons a rest ih =>
    intro i
    show f i a :: enumFrom f (i + 1) rest = _
    rw [ih (i + 1)]
    rfl

/-! ### Claim C5: termination of the chunker on valid parameters -/

/-- C5: REFUTED (code bug).  The claim states that for every text and every
parameter pair with `chunk_size > 0` and `0 ≤ overlap < chunk_size` the
chunking loop terminates.  With the perfectly valid parameters
`chunk_size = 10`, `overlap = 9` and the text `"aaaaaaaa.aaaaaaaaaa"` the
sentence-boundary snap moves the emitted end back to index 9, so the next
window start is `9 - 9 = 0` forever: the window never advances and the Python
`while` loop never exits.  Formally, no amount of fuel makes the loop
terminate. -/
theorem create_chunks_diverges_on_valid_params :
    ∀ fuel, create_chunks 10 9 ("aaaaaaaa.aaaaaaaaaa".toList) fuel = none := by
  have key : ∀ fuel acc,
      create_chunks_loop 10 9 ("aaaaaaaa.aaaaaaaaaa".toList) fuel 0 acc = none := by
    intro fuel
    induction fuel with
    | zero => intro acc; rfl
    | succ n ih =>
      intro acc
      have h : create_chunks_loop 10 9 ("aaaaaaaa.aaaaaaaaaa".toList) (n + 1) 0 acc =
          create_chunks_loop 10 9 ("aaaaaaaa.aaaaaaaaaa".toList) n 0
            (acc ++ [pyStrip (pySlice (pySlice ("aaaaaaaa.aaaaaaaaaa".toList) 0 10) 0 9)]) :=
        rfl
      rw [h]
      exact ih _
  intro fuel
  exact key fuel []

/-! ### Claim C6: `overlap ≥ chunk_size` is not rejected -/

/-- C6: REFUTED (code bug).  The claim states that a configuration with
`overlap ≥ chunk_size` is rejected with an invalid-argument error before any
chunking work begins.  `DocumentProcessor.__init__` stores the parameters
without any validation and `_create_chunks` has no guard either; instead of
failing fast, with `chunk_size = 1`, `overlap = 1` on the text `"ab"` the
window start stays at `0` forever and the loop never exits (no fuel bound
suffices). -/
theorem create_chunks_diverges_without_validation :
    ∀ fuel, create_chunks 1 1 ("ab".toList) fuel = none := by
  have key : ∀ fuel acc,
      create_chunks_loop 1 1 ("ab".toList) fuel 0 acc = none := by
    intro fuel
    induction fuel with
    | zero => intro acc; rfl
    | succ n ih =>
      intro acc
      have h : create_chunks_loop 1 1 ("ab".toList) (n + 1) 0 acc =
          create_chunks_loop 1 1 ("ab".toList) n 0
            (acc ++ [pyStrip (pySlice ("ab".toList) 0 1)]) := rfl
      rw [h]
      exact ih _
  intro fuel
  exact key fuel []

/-! ### Claim C7: short text produces exactly one chunk -/

/-- C7: counterexample.  The claim states that every non-empty text shorter
than `chunk_size` (with valid `0 ≤ overlap < chunk_size`) yields exactly one
chunk.  With `chunk_size = 10`, `overlap = 8` and the 5-character text
`"abcde"` the window start advances by only `chunk_size - overlap = 2`, so the
loop re-enters twice inside the text and three chunks come out. -/
theorem create_chunks_short_text_three_chunks :
    ("abcde".toList ≠ [] ∧ "abcde".toList.length < 10 ∧ 8 < 10) ∧
    create_chunks 10 8 ("abcde".toList) 10 =
      some ["abcde".toList, "cde".toList, "e".toList] := by
  constructor
  · exact ⟨by decide, by decide, by decide⟩
  · decide

/-- C7 as amended: if additionally the text fits in a single window advance
(`text.length + overlap ≤ chunk_size`) and the text does not strip to nothing,
the chunker emits exactly one chunk, the stripped text.  (The original claim
fails both for `chunk_size - overlap < text.length < chunk_size`, where the
window re-enters, and for whitespace-only text, whose only chunk is dropped by
the final filter.) -/
theorem create_chunks_single_chunk (chunk_size chunk_overlap fuel : Nat)
    (text : List Char) (hov : chunk_overlap < chunk_size)
    (hlen : text.length + chunk_overlap ≤ chunk_size)
    (hne : pyStrip text ≠ []) (hfuel : 2 ≤ fuel) :
    create_chunks chunk_size chunk_overlap text fuel = some [pyStrip text] := by
  obtain ⟨m, rfl⟩ : ∃ m, fuel = m + 2 := ⟨fuel - 2, by omega⟩
  have htne : text ≠ [] := by
    intro h
    exact hne (by simp [h, pyStrip])
  have hL : 0 < text.length := List.length_pos.mpr htne
  have hLcs : text.length ≤ chunk_size := by omega
  have hne' : (pyStrip text).isEmpty = false := by
    cases hx : pyStrip text with
    | nil => exact absurd hx hne
    | cons a l => rfl
  have c1 : (0 : Int) < (text.length : Int) := by exact_mod_cast hL
  have c2 : ¬ ((0 : Int) + (chunk_size : Int) < (text.length : Int)) := by
    omega
  have c3 : ¬ ((0 : Int) + (chunk_size : Int) - (chunk_overlap : Int) <
      (text.length : Int)) := by
    omega
  have hslice : pySlice text 0 ((0 : Int) + (chunk_size : Int)) = text := by
    rw [zero_add]
    exact pySlice_zero_of_le text chunk_size hLcs
  unfold create_chunks
  show create_chunks_loop chunk_size chunk_overlap text (m + 1 + 1) 0 [] = _
  rw [create_chunks_loop]
  rw [if_pos c1]
  simp only [if_neg c2, hslice]
  rw [create_chunks_loop]
  rw [if_neg c3]
  simp [hne']

/-- Witness for `create_chunks_single_chunk` at `chunk_size = 10`,
`overlap = 2`, text `"abc"`, fuel 2. -/
theorem create_chunks_single_chunk_witness :
    (2 < 10 ∧ "abc".toList.length + 2 ≤ 10 ∧ pyStrip ("abc".toList) ≠ [] ∧ 2 ≤ 2) ∧
    create_chunks 10 2 ("abc".toList) 2 = some [pyStrip ("abc".toList)] :=
  ⟨⟨by decide, by decide, by decide, by decide⟩,
    create_chunks_single_chunk 10 2 2 ("abc".toList) (by decide) (by decide)
      (by decide) (by decide)⟩

/-! ### Claim C4: duplicate detection across the two payload shapes -/

/-- C4: counterexample.  The claim states that `check_document_exists` returns
`true` whenever a point with the given doc id is present in EITHER payload
shape, in particular that a legacy flat-shape point is detected even when the
nested-metadata look-up succeeds but finds nothing.  In the code the top-level
`doc_id` scroll only runs inside the `except` handler of the `metadata.doc_id`
scroll: when the nested look-up succeeds and finds nothing, the function
returns `false` although a legacy point with that doc id is in the index. -/
theorem check_document_exists_misses_legacy :
    legacy_doc_id_matches "d" (Payload.legacy "d" "t") = true ∧
    check_document_exists false false [Payload.legacy "d" "t"] "d" = false := by
  decide

/-- C4 as amended: for a non-empty doc id, `check_document_exists` detects a
nested-shape point whenever the `metadata.doc_id` look-up succeeds, and it
detects a legacy flat-shape point only when the `metadata.doc_id` look-up
fails and the top-level `doc_id` look-up succeeds; a legacy point is NOT
consulted when the nested look-up succeeds without a hit. -/
theorem check_document_exists_shapes (lf : Bool) (points : List Payload)
    (doc_id : String) (p : Payload) (hd : doc_id ≠ "") (hp : p ∈ points) :
    (nested_doc_id_matches doc_id p = true →
      check_document_exists false lf points doc_id = true) ∧
    (legacy_doc_id_matches doc_id p = true →
      check_document_exists true false points doc_id = true) := by
  constructor
  · intro h
    simp only [check_document_exists, if_neg hd, Bool.false_eq_true, if_false]
    exact List.any_eq_true.mpr ⟨p, hp, h⟩
  · intro h
    simp only [check_document_exists, if_neg hd, if_pos rfl, Bool.false_eq_true,
      if_false]
    exact List.any_eq_true.mpr ⟨p, hp, h⟩

/-- Witness for `check_document_exists_shapes`: a legacy point is found when
the nested look-up raises, and a nested point is found when it succeeds. -/
theorem check_document_exists_shapes_witness :
    (("d" : String) ≠ "" ∧ Payload.legacy "d" "t" ∈ [Payload.legacy "d" "t"]) ∧
    check_document_exists true false [Payload.legacy "d" "t"] "d" = true :=
  ⟨⟨by decide, by simp⟩,
    (check_document_exists_shapes false [Payload.legacy "d" "t"] "d"
      (Payload.legacy "d" "t") (by decide) (by simp)).2 (by decide)⟩

/-! ### Claim C3: failures inside `add` do not propagate -/

/-- C3: counterexample.  The claim states that when embedding or upsert fails
inside `add`, the failure propagates to the caller as an error.  The code
wraps the whole embed-and-upsert block in `except Exception: ... return
False`: at a concrete fresh input with the upsert failing, `add_documents`
returns the ordinary value `False` (an `Except.ok`, not an error). -/
theorem add_documents_failure_returns_false :
    add_documents false false true []
      [⟨"t", ⟨"s", "f", 0, ".txt", "d"⟩⟩] = Except.ok ([], false) := by
  rfl

/-- C3 as amended: the per-doc-id lock is released (the body runs under
`with doc_lock:`), but an embedding/upsert failure is caught inside
`add_documents`, logged, and converted into the normal return value `False` —
indistinguishable from a duplicate skip; no `EmbeddingFailed`/
`StorageWriteFailed` error ever reaches the caller.  Formally: whatever the
look-up flags, index state and chunk list, a failing upsert yields
`Except.ok (points, false)`, never an `Except.error`. -/
theorem add_documents_swallows_failures (meta_lookup_fails legacy_lookup_fails : Bool)
    (points : List Payload) (chunks : List Chunk) :
    add_documents meta_lookup_fails legacy_lookup_fails true points chunks =
      Except.ok (points, false) := by
  cases chunks with
  | nil => rfl
  | cons c0 rest =>
    simp only [add_documents]
    split
    · rfl
    · rfl

/-! ### Claim C2: sequential dedup idempotence -/

/-- C2: counterexample.  The claim quantifies over every non-empty chunk
sequence.  For chunks whose doc id is the empty string,
`check_document_exists` short-circuits to `false` (`if not doc_id`), so a
second identical `add` call does NOT observe the duplicate: it inserts the
points again and returns `True`, leaving duplicates in the index. -/
theorem add_documents_empty_doc_id_reinserts :
    add_documents false false false []
      [⟨"t", ⟨"s", "f", 0, ".txt", ""⟩⟩] =
      Except.ok ([Payload.langchain "t" ⟨"s", "f", 0, ".txt", ""⟩], true) ∧
    add_documents false false false [Payload.langchain "t" ⟨"s", "f", 0, ".txt", ""⟩]
      [⟨"t", ⟨"s", "f", 0, ".txt", ""⟩⟩] =
      Except.ok ([Payload.langchain "t" ⟨"s", "f", 0, ".txt", ""⟩,
                  Payload.langchain "t" ⟨"s", "f", 0, ".txt", ""⟩], true) := by
  constructor
  · rfl
  · rfl

/-- C2 as amended: for every non-empty chunk sequence whose (first chunk's)
doc id is non-empty and not yet in the index, the first `add` call inserts one
LangChain-shape point per chunk and returns `True`, and a second identical
call re-checks existence inside the lock, finds the freshly inserted points,
returns `False`, and leaves the index exactly as the first call left it. -/
theorem add_documents_idempotent (points : List Payload) (c0 : Chunk)
    (rest : List Chunk) (hd : c0.metadata.doc_id ≠ "")
    (habs : points.any (nested_doc_id_matches c0.metadata.doc_id) = false) :
    add_documents false false false points (c0 :: rest) =
      Except.ok (points ++ (c0 :: rest).map (fun c =>
        Payload.langchain c.text { c.metadata with doc_id := c0.metadata.doc_id }),
        true) ∧
    add_documents false false false
      (points ++ (c0 :: rest).map (fun c =>
        Payload.langchain c.text { c.metadata with doc_id := c0.metadata.doc_id }))
      (c0 :: rest) =
      Except.ok (points ++ (c0 :: rest).map (fun c =>
        Payload.langchain c.text { c.metadata with doc_id := c0.metadata.doc_id }),
        false) := by
  have hchk1 : check_document_exists false false points c0.metadata.doc_id = false := by
    simp [check_document_exists, hd, habs]
  have hchk2 : check_document_exists false false
      (points ++ (c0 :: rest).map (fun c =>
        Payload.langchain c.text { c.metadata with doc_id := c0.metadata.doc_id }))
      c0.metadata.doc_id = true := by
    simp [check_document_exists, hd, List.any_append, nested_doc_id_matches]
  constructor
  · simp only [add_documents]
    rw [hchk1]
    simp
  · simp only [add_documents]
    rw [hchk2]
    simp

/-- Witness for `add_documents_idempotent` on a concrete chunk with doc id
`"d"` against an empty index. -/
theorem add_documents_idempotent_witness :
    ((⟨"t", ⟨"s", "f", 0, ".txt", "d"⟩⟩ : Chunk).metadata.doc_id ≠ "" ∧
      ([] : List Payload).any
        (nested_doc_id_matches (⟨"t", ⟨"s", "f", 0, ".txt", "d"⟩⟩ : Chunk).metadata.doc_id) =
        false) ∧
    add_documents false false false [] [⟨"t", ⟨"s", "f", 0, ".txt", "d"⟩⟩] =
      Except.ok ([Payload.langchain "t" ⟨"s", "f", 0, ".txt", "d"⟩], true) ∧
    add_documents false false false [Payload.langchain "t" ⟨"s", "f", 0, ".txt", "d"⟩]
      [⟨"t", ⟨"s", "f", 0, ".txt", "d"⟩⟩] =
      Except.ok ([Payload.langchain "t" ⟨"s", "f", 0, ".txt", "d"⟩], false) :=
  ⟨⟨by decide, by decide⟩,
    add_documents_idempotent [] ⟨"t", ⟨"s", "f", 0, ".txt", "d"⟩⟩ []
      (by decide) (by decide)⟩

/-! ### Claim C8: context formatting -/

/-- C8: CONFIRMED.  `get_context_for_generation` returns the literal
no-documents sentinel on an empty retrieval result, and otherwise the
concatenation, in retrieval order, of one labeled block
`"[Document i - <filename> (Relevance: <score to 2 decimals>)]\n<text>\n"`
per result (i counting from 1), consecutive blocks separated by the literal
delimiter line `"\n---\n"` — i.e. it coincides with the formatting the spec
prescribes (`context_for_spec`). -/
theorem get_context_matches_spec (documents : List RetrievedDoc) :
    get_context_for_generation documents = context_for_spec documents := by
  unfold get_context_for_generation context_for_spec
  rw [enumFrom_zipWith context_block documents 1]

/-! ### Claim C9: reduced generation budget on the sentinel -/

/-- C9: counterexample.  The claim compares the sentinel budget with the
budget for "a non-empty context".  `OpenAIGenerator.generate` tests the
context by SUBSTRING containment of "No relevant documents found", so a
non-empty retrieval whose document text contains that phrase also gets the
reduced budget 300: the sentinel budget is then not strictly smaller. -/
theorem query_max_tokens_phrase_in_document :
    query_max_tokens [⟨no_documents_sentinel, some "f.txt", some qOne⟩] = 300 ∧
    ¬ (query_max_tokens [] <
        query_max_tokens [⟨no_documents_sentinel, some "f.txt", some qOne⟩]) := by
  constructor
  · decide
  · decide

/-- C9 as amended: on an empty retrieval the context is the sentinel and
`RAGPipeline.query` (which passes no `max_tokens`) uses the reduced budget
`min 1000 300 = 300`; for any retrieval whose formatted context does not
contain the probed substring "No relevant documents found" the budget is the
default 1000, so the sentinel budget is strictly smaller.  A non-empty context
containing that phrase, however, is also clamped to 300. -/
theorem query_budget_reduced_on_sentinel (documents : List RetrievedDoc)
    (hne : documents ≠ [])
    (hnc : isSubstring no_context_phrase.toList
      (get_context_for_generation documents).toList = false) :
    query_max_tokens [] < query_max_tokens documents := by
  have h1 : query_max_tokens [] = 300 := by decide
  have hnc' : isSubstring no_context_phrase.data
      (get_context_for_generation documents).data = false := hnc
  have h2 : query_max_tokens documents = 1000 := by
    unfold query_max_tokens generate_max_tokens
    simp [hnc, hnc']
  rw [h1, h2]
  omega

/-- Witness for `query_budget_reduced_on_sentinel` on a one-hit retrieval
whose formatted context does not contain the probed phrase. -/
theorem query_budget_reduced_on_sentinel_witness :
    (([⟨"hello", some "a.txt", some qHalf⟩] : List RetrievedDoc) ≠ [] ∧
      isSubstring no_context_phrase.toList
        (get_context_for_generation
          [⟨"hello", some "a.txt", some qHalf⟩]).toList = false) ∧
    query_max_tokens [] <
      query_max_tokens [⟨"hello", some "a.txt", some qHalf⟩] :=
  ⟨⟨by decide, by decide⟩,
    query_budget_reduced_on_sentinel [⟨"hello", some "a.txt", some qHalf⟩]
      (by decide) (by decide)⟩

/-! ### Claim C10: doc id is path-based on the file route, content-based on
the upload route -/

/-- C10: CONFIRMED.  On the path-based route every chunk `process_file`
produces carries `doc_id = md5(str(file_path))` — the digest of the PATH, so
it is unchanged when the content at that path changes, and the two concrete
distinct paths `"a.txt"` and `"b.txt"` receive different doc ids even for
byte-identical content (distinctness of the digests is established by
computing both).  On the bytes-based route every chunk `process_upload`
produces carries `doc_id = md5(file_content)` — the digest of the raw
content, independent of the filename. -/
theorem doc_id_path_based_not_content_based :
    (∀ chunk_size chunk_overlap file_path extracted_text fuel chunks ch,
      process_file chunk_size chunk_overlap file_path extracted_text fuel =
        some (Except.ok chunks) → ch ∈ chunks →
      ch.metadata.doc_id = generate_doc_id file_path) ∧
    generate_doc_id "a.txt" ≠ generate_doc_id "b.txt" ∧
    (∀ chunk_size chunk_overlap filename file_content extracted_text fuel chunks ch,
      process_upload chunk_size chunk_overlap filename file_content extracted_text fuel =
        some (Except.ok chunks) → ch ∈ chunks →
      ch.metadata.doc_id = md5hex file_content) := by
  refine ⟨?_, by decide, ?_⟩
  · intro cs ov p t fuel chunks ch hpf hmem
    simp only [process_file] at hpf
    split at hpf
    · rw [Option.map_eq_some'] at hpf
      obtain ⟨cl, _, hok⟩ := hpf
      rw [Except.ok.injEq] at hok
      rw [← hok] at hmem
      obtain ⟨j, a, _, rfl⟩ := mem_enumFrom _ cl 0 ch hmem
      rfl
    · simp at hpf
  · intro cs ov f content t fuel chunks ch hpf hmem
    simp only [process_upload] at hpf
    split at hpf
    · rw [Option.map_eq_some'] at hpf
      obtain ⟨cl, _, hok⟩ := hpf
      rw [Except.ok.injEq] at hok
      rw [← hok] at hmem
      obtain ⟨j, a, _, rfl⟩ := mem_enumFrom _ cl 0 ch hmem
      rfl
    · simp at hpf

/-- Witness for `doc_id_path_based_not_content_based` on the concrete file
`"a.txt"` with extracted text `"hi!"`. -/
theorem doc_id_path_based_witness :
    process_file 10 2 "a.txt" ("hi!".toList) 2 = some (Except.ok
      [{ text := "hi!"
         metadata :=
          { source := "a.txt", filename := "a.txt", chunk_index := 0,
            file_type := ".txt", doc_id := generate_doc_id "a.txt" } }]) ∧
    ({ text := "hi!"
       metadata :=
        { source := "a.txt", filename := "a.txt", chunk_index := 0,
          file_type := ".txt", doc_id := generate_doc_id "a.txt" } } : Chunk).metadata.doc_id =
      generate_doc_id "a.txt" :=
  ⟨by rfl,
    doc_id_path_based_not_content_based.1 10 2 "a.txt" ("hi!".toList) 2
      [{ text := "hi!"
         metadata :=
          { source := "a.txt", filename := "a.txt", chunk_index := 0,
            file_type := ".txt", doc_id := generate_doc_id "a.txt" } }]
      { text := "hi!"
        metadata :=
         { source := "a.txt", filename := "a.txt", chunk_index := 0,
           file_type := ".txt", doc_id := generate_doc_id "a.txt" } }
      (by rfl) (by simp)⟩

end KnowledgeHub
